import Mathlib

/-!
Verification of the bedrock-luma-ads-pipeline orchestration core.

The definitions below are a shallow embedding of `merge_videos.py` and
`ads_generation.py`: pure decision logic is translated directly, external
effects (the remote generation API, object storage, the media prober and the
local filesystem) are passed in explicitly as oracle values, and Python floats
for media durations are modelled as rationals.
-/

namespace LumaPipeline

/-! ## Media probing and the transition merge path (`merge_videos.py`) -/

/-- Result of `get_video_info` (ffprobe): width, height and duration of the
single video stream.  `get_video_info` returns `None` on probe failure, which
is modelled by `Option MediaInfo` at the use sites. -/
structure MediaInfo where
  width : Nat
  height : Nat
  duration : ℚ
  deriving DecidableEq

/-- One ffmpeg filter element appended by `merge_videos_with_transitions` while
building the per-segment filter chain.  `scale`'s Boolean records
`force_original_aspect_ratio=decrease`; `pad`'s Boolean records the centered
offsets `(ow-iw)/2:(oh-ih)/2`. -/
inductive FilterOp where
  | scale (w h : Nat) (forceAspectDecrease : Bool)
  | pad (w h : Nat) (centered : Bool)
  | setsar
  | fadeIn (st d : ℚ)
  | fadeOut (st d : ℚ)
  deriving DecidableEq

/-- The filter chain built for segment `i` of `n` in
`merge_videos_with_transitions` (lines 118-134): scale/pad/setsar always, a
fade-in for every segment but the first, and a fade-out for every non-last
segment whose probe succeeded with positive duration, starting at
`duration - transition_duration`. -/
def segmentFilterChain (tw th i n : Nat) (info : Option MediaInfo) (td : ℚ) :
    List FilterOp :=
  [FilterOp.scale tw th true, FilterOp.pad tw th true, FilterOp.setsar]
    ++ (if 0 < i then [FilterOp.fadeIn 0 td] else [])
    ++ (if i < n - 1 then
          match info with
          | some v => if 0 < v.duration then [FilterOp.fadeOut (v.duration - td) td] else []
          | none => []
        else [])

/-- `merge_videos_with_transitions` filter construction.  `probes` is the
media-prober oracle, one entry per input segment file (callers guarantee the
list is nonempty).  Returns `none` when the probe of the first segment fails
(the function prints an error and returns `False`); otherwise the per-segment
filter chains, with the target resolution taken from the first segment. -/
def merge_videos_with_transitions (probes : List (Option MediaInfo)) (td : ℚ) :
    Option (List (List FilterOp)) :=
  match probes.getD 0 none with
  | none => none
  | some first =>
      some ((List.range probes.length).map fun i =>
        segmentFilterChain first.width first.height i probes.length (probes.getD i none) td)

/-! ## String helpers

Python string operations used by the pipeline, implemented by structural
recursion on the character list so that concrete instances evaluate. -/

/-- Whether the first list is an initial run of the second (Python
`str.startswith` on char lists). -/
def listLeads : List Char → List Char → Bool
  | [], _ => true
  | _ :: _, [] => false
  | a :: as, b :: bs => a = b && listLeads as bs

/-- Python `name.startswith(pre)`. -/
def strStartsWith (name pre : String) : Bool := listLeads pre.data name.data

/-- Python `name.endswith(post)`. -/
def strEndsWith (name post : String) : Bool := listLeads post.data.reverse name.data.reverse

/-- Python `'_' in s`. -/
def strContainsChar (s : String) (c : Char) : Bool := s.data.contains c

/-- Python `s.split(sep)` for a one-character separator, on char lists. -/
def splitCharAux (sep : Char) : List Char → List Char → List (List Char)
  | [], acc => [acc.reverse]
  | c :: cs, acc =>
      if c = sep then acc.reverse :: splitCharAux sep cs []
      else splitCharAux sep cs (c :: acc)

/-- Python `s.split(sep)` for a one-character separator. -/
def pySplit (s : String) (sep : Char) : List String :=
  (splitCharAux sep s.data []).map String.mk

/-- Lexicographic (code-point) order on strings, as Python compares them. -/
def strLeb : List Char → List Char → Bool
  | [], _ => true
  | _ :: _, [] => false
  | a :: as, b :: bs => if a = b then strLeb as bs else decide (a < b)

/-- Insert into a lexicographically sorted list. -/
def insertSorted (a : String) : List String → List String
  | [] => [a]
  | b :: bs => if strLeb a.data b.data then a :: b :: bs else b :: insertSorted a bs

/-- Python `sorted` on a list of strings (lexicographic by code point). -/
def sortStrings : List String → List String
  | [] => []
  | a :: as => insertSorted a (sortStrings as)

/-! ## Segment resolution for a merge (`merge_videos.py`, `main` and
`merge_generated_videos`) -/

/-- Parsed content of a `session_videos_*.json` file: Python `dict.get` makes
the `timestamp` key optional. -/
structure SessionData where
  timestamp : Option String
  session_videos : List String
  deriving DecidableEq

/-- The outcome of reading a JSON file from disk: the file may be absent,
present but unreadable (an exception the code catches), or readable. -/
inductive FileRead (α : Type) where
  | absent
  | unreadable
  | content (val : α)
  deriving DecidableEq

/-- The state of the `generated_ads` directory as seen by the merge step:
the `latest_session_videos.json` pointer, the `session_videos_{ts}.json`
files keyed by timestamp, and the plain file names on disk. -/
structure MergeFS where
  latest_session : FileRead SessionData
  session_files : List (String × FileRead SessionData)
  disk_files : List String
  deriving DecidableEq

/-- `get_latest_session_timestamp`: read the pointer file if possible, else
fall back to the lexicographically last `session_videos_*.json` file and parse
the timestamp out of its stem. -/
def get_latest_session_timestamp (fs : MergeFS) : Option String :=
  match fs.latest_session with
  | FileRead.content sd => sd.timestamp
  | _ =>
      let names := sortStrings (fs.session_files.map fun p => "session_videos_" ++ p.1 ++ ".json")
      match names.getLast? with
      | none => none
      | some latest =>
          let stem := latest.dropRight 5
          if strContainsChar stem '_' then
            let parts := pySplit stem '_'
            if 4 ≤ parts.length then
              some (parts.getD 2 "" ++ "_" ++ parts.getD 3 "")
            else none
          else none

/-- The timestamp `merge_generated_videos` settles on: the caller-supplied one
if present, otherwise the latest-session lookup. -/
def resolvedTimestamp (use_timestamp : Option String) (fs : MergeFS) : Option String :=
  match use_timestamp with
  | some t => some t
  | none => get_latest_session_timestamp fs

/-- Segment names obtained from the session manifest strategy (read
`session_videos_{ts}.json`, keep the listed videos that exist on disk). -/
def manifestYield (fs : MergeFS) (ts : Option String) : List String :=
  match ts with
  | none => []
  | some t =>
      match fs.session_files.lookup t with
      | some (FileRead.content sd) => sd.session_videos.filter fun v => fs.disk_files.contains v
      | _ => []

/-- Segment names obtained from the filename-pattern strategy
(`video_{ts}_*.mp4`, sorted). -/
def patternYield (fs : MergeFS) (ts : Option String) : List String :=
  match ts with
  | none => []
  | some t =>
      sortStrings (fs.disk_files.filter fun n =>
        strStartsWith n ("video_" ++ t ++ "_") && strEndsWith n ".mp4")

/-- Segment names obtained from the directory-scan fallback
(`video_*.mp4`, sorted). -/
def allVideosYield (fs : MergeFS) : List String :=
  sortStrings (fs.disk_files.filter fun n =>
    strStartsWith n "video_" && strEndsWith n ".mp4")

/-- Which of the four resolution strategies produced the merged segment
list. -/
inductive Strategy where
  | explicitList
  | sessionManifest
  | filenamePattern
  | directoryScan
  deriving DecidableEq

/-- Segment resolution inside `merge_generated_videos`: with session scoping,
try the session manifest, then the filename pattern, then fall back to the
directory scan; without session scoping, scan the directory.  The final
`video_files.sort()` of the source is the trailing `sortStrings`. -/
def merge_resolve (session_only : Bool) (use_timestamp : Option String) (fs : MergeFS) :
    Strategy × List String :=
  if session_only then
    let ts := resolvedTimestamp use_timestamp fs
    let fromManifest := manifestYield fs ts
    if fromManifest.isEmpty then
      let fromPattern := patternYield fs ts
      if fromPattern.isEmpty then (Strategy.directoryScan, sortStrings (allVideosYield fs))
      else (Strategy.filenamePattern, sortStrings fromPattern)
    else (Strategy.sessionManifest, sortStrings fromManifest)
  else (Strategy.directoryScan, sortStrings (allVideosYield fs))

/-- Segment resolution over the whole CLI (`main`): an explicit
`--videos` list (filtered to the files that exist) bypasses
`merge_generated_videos` entirely; otherwise the `--all-videos` flag decides
whether session scoping applies. -/
def resolve_segments (explicitVideos : Option (List String)) (all_videos : Bool)
    (use_timestamp : Option String) (fs : MergeFS) : Strategy × List String :=
  match explicitVideos with
  | some vs => (Strategy.explicitList, vs.filter fun v => fs.disk_files.contains v)
  | none => merge_resolve (!all_videos) use_timestamp fs

/-! ## Job submission and polling (`ads_generation.py`, `generate_video_async`) -/

/-- The fields of a `get_async_invoke` response the code inspects: the status
string, the output S3 URI reported on completion, and the optional
`failureReason`. -/
structure StatusResponse where
  status : String
  outputUri : String
  failureReason : Option String
  deriving DecidableEq

/-- The remote side of one job, as an oracle: whether `start_async_invoke`
raises (and with which message), and what each `get_async_invoke` call
returns — either a response or a raised exception. -/
structure RemoteJob where
  submitError : Option String
  poll : Nat → Except String StatusResponse

/-- The dictionary `generate_video_async` returns, restricted to the fields
downstream code reads: the `success` flag, the S3 location (success only),
the error text (non-success only) and the echoed `video_index`. -/
structure VideoResult where
  success : Bool
  s3_location : Option String
  error : Option String
  video_index : Nat
  deriving DecidableEq

/-- The success return value (status `Completed`). -/
def completedResult (loc : String) (idx : Nat) : VideoResult :=
  ⟨true, some loc, none, idx⟩

/-- The return value for remote status `Failed`. -/
def failedResult (reason : String) (idx : Nat) : VideoResult :=
  ⟨false, none, some ("Generation failed: " ++ reason), idx⟩

/-- The return value when the attempt budget is exhausted. -/
def timedOutResult (idx : Nat) : VideoResult :=
  ⟨false, none, some "Generation timed out after maximum attempts", idx⟩

/-- The return value when an exception is caught (submission or polling). -/
def exceptionResult (e : String) (idx : Nat) : VideoResult :=
  ⟨false, none, some ("Error generating video: " ++ e), idx⟩

/-- `max_attempts = 60` in the polling loop. -/
def max_attempts : Nat := 60

/-- The fixed `time.sleep(10)` between polls, in seconds. -/
def poll_sleep_seconds : Nat := 10

/-- The polling loop of `generate_video_async`: up to `remaining` further
attempts starting at index `attempt`; `Completed` and `Failed` are terminal,
any other status continues, a raised exception is caught by the surrounding
`try` block, and running out of attempts yields the timeout result. -/
def poll_loop (poll : Nat → Except String StatusResponse) (idx : Nat) :
    Nat → Nat → VideoResult
  | _, 0 => timedOutResult idx
  | attempt, remaining + 1 =>
      match poll attempt with
      | Except.error e => exceptionResult e idx
      | Except.ok resp =>
          if resp.status = "Completed" then completedResult resp.outputUri idx
          else if resp.status = "Failed" then
            failedResult (resp.failureReason.getD "No failureReason provided") idx
          else poll_loop poll idx (attempt + 1) remaining

/-- `generate_video_async`: submit, then poll up to `max_attempts` times.
Every exception raised inside the `try` block is converted into a non-success
return value carrying the exception text. -/
def generate_video_async (job : RemoteJob) (idx : Nat) : VideoResult :=
  match job.submitError with
  | some e => exceptionResult e idx
  | none => poll_loop job.poll idx 0 max_attempts

/-! ## Session aggregation (`ads_generation.py`, `generate_ads`) -/

/-- One entry of a prompt list: the analysis file holds either a dict with
optional `prompt` / `prompt_type` keys or a bare string. -/
structure PromptDict where
  prompt : Option String
  prompt_type : Option String
  deriving DecidableEq

/-- A prompt as read from `per_image_analysis[..].video_prompts`. -/
inductive PromptData where
  | dict (d : PromptDict)
  | str (s : String)
  deriving DecidableEq

/-- The prompt text used for generation (`prompt_data.get('prompt', '')`). -/
def PromptData.text : PromptData → String
  | PromptData.dict d => d.prompt.getD ""
  | PromptData.str s => s

/-- The prompt type (`prompt_data.get('prompt_type', 'Unknown')`). -/
def PromptData.ptype : PromptData → String
  | PromptData.dict d => d.prompt_type.getD "Unknown"
  | PromptData.str _ => "Unknown"

/-- One entry of `per_image_analysis`: an optional `image_filename` and the
prompts for that image. -/
structure ImageAnalysis where
  image_filename : Option String
  video_prompts : List PromptData
  deriving DecidableEq

/-- `image_analysis.get('image_filename', f'image_{img_idx}')`. -/
def imageName (img_idx : Nat) (ia : ImageAnalysis) : String :=
  ia.image_filename.getD ("image_" ++ toString img_idx)

/-- A local path `generated_folder / local_filename`, kept as directory and
file name so that Python's `Path(...).name` is the `name` field. -/
structure LocalPath where
  dir : String
  name : String
  deriving DecidableEq

/-- The environment of one session: the remote behaviour of the job submitted
as `total_video_index = j`, and whether `download_video_from_s3` succeeds for
that job. -/
structure Env where
  remote : Nat → RemoteJob
  download : Nat → Bool

/-- The result of the job submitted with `total_video_index = j`. -/
def genResult (env : Env) (j : Nat) : VideoResult :=
  generate_video_async (env.remote j) j

/-- A per-job record as appended to `successful_videos` / `failed_videos`:
the returned result plus the source-image and ordering metadata the loop adds,
and the local file path when the download succeeded. -/
structure JobRecord where
  result : VideoResult
  prompt : String
  source_image : String
  prompt_type : String
  image_index : Nat
  prompt_index : Nat
  local_filename : Option LocalPath
  deriving DecidableEq

/-- The mutable state of the `generate_ads` loop.  `download_attempts` logs
the `total_video_index` of every call to `download_video_from_s3`, in order. -/
structure GenState where
  successful_videos : List JobRecord
  failed_videos : List JobRecord
  total_video_index : Nat
  download_attempts : List Nat
  deriving DecidableEq

/-- Python `f'{n:02d}'`. -/
def pad2 (n : Nat) : String :=
  if n < 10 then "0" ++ toString n else toString n

/-- Python `prompt_type.lower().replace(' ', '_')`: both operations are
per-character for a one-character pattern. -/
def slugify (s : String) : String :=
  String.mk (s.data.map fun c => if c = ' ' then '_' else c.toLower)

/-- The derived local artifact filename
`video_{timestamp}_{img_idx:02d}_{prompt_idx:02d}_{slug}.mp4`. -/
def localFilename (timestamp : String) (img_idx prompt_idx : Nat) (ptype : String) : String :=
  "video_" ++ timestamp ++ "_" ++ pad2 img_idx ++ "_" ++ pad2 prompt_idx ++ "_"
    ++ slugify ptype ++ ".mp4"

/-- The `generated_ads` output folder. -/
def generated_folder : String := "generated_ads"

/-- The body of the inner loop of `generate_ads` for one (image, prompt)
pair: bump `total_video_index`, run the job, and append the record to exactly
one of the two outcome lists; on success attempt the download once and attach
the local path only if it succeeds. -/
def processPrompt (env : Env) (timestamp img_name : String) (img_idx prompt_idx : Nat)
    (pd : PromptData) (st : GenState) : GenState :=
  let idx := st.total_video_index + 1
  let result := genResult env idx
  let rec0 : JobRecord :=
    { result := result, prompt := pd.text, source_image := img_name,
      prompt_type := pd.ptype, image_index := img_idx, prompt_index := prompt_idx,
      local_filename := none }
  if result.success then
    let fname := localFilename timestamp img_idx prompt_idx pd.ptype
    let rec1 := if env.download idx then
        { rec0 with local_filename := some ⟨generated_folder, fname⟩ } else rec0
    { st with total_video_index := idx,
              successful_videos := st.successful_videos ++ [rec1],
              download_attempts := st.download_attempts ++ [idx] }
  else
    { st with total_video_index := idx,
              failed_videos := st.failed_videos ++ [rec0] }

/-- The inner loop over `prompts_to_use`, with 1-based `prompt_idx`. -/
def processPrompts (env : Env) (timestamp img_name : String) (img_idx : Nat) :
    Nat → List PromptData → GenState → GenState
  | _, [], st => st
  | prompt_idx, pd :: rest, st =>
      processPrompts env timestamp img_name img_idx (prompt_idx + 1) rest
        (processPrompt env timestamp img_name img_idx prompt_idx pd st)

/-- One iteration of the outer loop: skip images with no prompts, otherwise
process the first `num_videos_per_image` prompts. -/
def processImage (env : Env) (timestamp : String) (num img_idx : Nat)
    (ia : ImageAnalysis) (st : GenState) : GenState :=
  if ia.video_prompts.isEmpty then st
  else processPrompts env timestamp (imageName img_idx ia) img_idx 1
        (ia.video_prompts.take num) st

/-- The outer loop over `per_image_analyses`, with 1-based `img_idx`. -/
def processImages (env : Env) (timestamp : String) (num : Nat) :
    Nat → List ImageAnalysis → GenState → GenState
  | _, [], st => st
  | img_idx, ia :: rest, st =>
      processImages env timestamp num (img_idx + 1) rest
        (processImage env timestamp num img_idx ia st)

/-- The empty starting state of `generate_ads`. -/
def initState : GenState := ⟨[], [], 0, []⟩

/-- The whole generation loop of `generate_ads`. -/
def generate_ads_run (env : Env) (timestamp : String) (num : Nat)
    (analyses : List ImageAnalysis) : GenState :=
  processImages env timestamp num 1 analyses initState

/-- The count fields of the generation report. -/
structure Report where
  timestamp : String
  total_attempted : Nat
  successful_count : Nat
  failed_count : Nat
  deriving DecidableEq

/-- The report written at the end of `generate_ads`. -/
def mkReport (timestamp : String) (st : GenState) : Report :=
  ⟨timestamp, st.total_video_index, st.successful_videos.length, st.failed_videos.length⟩

/-- The `session_videos` list: the base names of the successful videos that
were downloaded (`'local_filename' in video`). -/
def sessionVideos (st : GenState) : List String :=
  st.successful_videos.filterMap fun r => r.local_filename.map LocalPath.name

/-- The persisted manifest shape shared by `session_videos_{ts}.json` and
`latest_session_videos.json`. -/
structure SessionManifest where
  timestamp : String
  session_videos : List String
  deriving DecidableEq

/-- The manifest-related files of the `generated_ads` folder as mutated by
`generate_ads`: the session-scoped manifests in write order, and the
`latest_session_videos.json` pointer. -/
structure AdsFS where
  session_manifests : List (String × SessionManifest)
  latest : Option SessionManifest
  deriving DecidableEq

/-- The filesystem effect of one `generate_ads` call: after the whole batch,
write the session manifest and overwrite the latest pointer — but only when
at least one video was downloaded. -/
def generate_ads_fs (env : Env) (timestamp : String) (num : Nat)
    (analyses : List ImageAnalysis) (fs : AdsFS) : AdsFS × Report :=
  let st := generate_ads_run env timestamp num analyses
  let vids := sessionVideos st
  let rep := mkReport timestamp st
  if vids.isEmpty then (fs, rep)
  else ({ session_manifests := fs.session_manifests ++ [(timestamp, ⟨timestamp, vids⟩)],
          latest := some ⟨timestamp, vids⟩ }, rep)

/-- The inputs of one session in a sequence of `generate_ads` invocations. -/
structure SessionInput where
  timestamp : String
  num : Nat
  analyses : List ImageAnalysis
  env : Env

/-- Run a sequence of sessions against the filesystem, in order. -/
def runSessions (fs : AdsFS) : List SessionInput → AdsFS
  | [] => fs
  | s :: rest => runSessions (generate_ads_fs s.env s.timestamp s.num s.analyses fs).1 rest

/-! ## Lemmas about the transition filter chain -/

theorem segmentFilterChain_take3 (tw th i n : Nat) (info : Option MediaInfo) (td : ℚ) :
    (segmentFilterChain tw th i n info td).take 3 =
      [FilterOp.scale tw th true, FilterOp.pad tw th true, FilterOp.setsar] := by
  unfold segmentFilterChain
  rfl

theorem fadeIn_mem_segmentFilterChain (tw th i n : Nat) (info : Option MediaInfo) (td : ℚ) :
    FilterOp.fadeIn 0 td ∈ segmentFilterChain tw th i n info td ↔ 0 < i := by
  unfold segmentFilterChain
  cases info with
  | none => split_ifs <;> simp_all
  | some v => split_ifs <;> simp_all

theorem fadeOut_mem_segmentFilterChain (tw th i n : Nat) (v : MediaInfo) (td : ℚ)
    (hd : 0 < v.duration) (hi : i < n - 1) :
    FilterOp.fadeOut (v.duration - td) td ∈ segmentFilterChain tw th i n (some v) td := by
  unfold segmentFilterChain
  split_ifs <;> simp_all

theorem fadeOut_not_mem_segmentFilterChain_last (tw th i n : Nat) (info : Option MediaInfo)
    (td : ℚ) (hi : ¬ i < n - 1) : ∀ a b, FilterOp.fadeOut a b ∉ segmentFilterChain tw th i n info td := by
  intro a b
  unfold segmentFilterChain
  cases info with
  | none => split_ifs <;> simp_all
  | some v => split_ifs <;> simp_all

theorem fadeOut_not_mem_segmentFilterChain_noProbe (tw th i n : Nat) (td : ℚ) :
    ∀ a b, FilterOp.fadeOut a b ∉ segmentFilterChain tw th i n none td := by
  intro a b
  unfold segmentFilterChain
  split_ifs <;> simp_all

theorem merge_videos_with_transitions_chain (probes : List (Option MediaInfo)) (td : ℚ)
    (first : MediaInfo) (h0 : probes.getD 0 none = some first) (i : Nat)
    (hi : i < probes.length) :
    ∃ chains, merge_videos_with_transitions probes td = some chains
      ∧ chains.getD i [] =
          segmentFilterChain first.width first.height i probes.length (probes.getD i none) td := by
  refine ⟨_, by unfold merge_videos_with_transitions; rw [h0], ?_⟩
  simp [List.getD, List.getElem?_map, List.getElem?_range hi]

/-- Claim C1: the spec requires the transition-path fade-out start of a
segment with probed duration D and transition duration T to be
max(0, D − T) — zero at D = T, never negative, with short segments clamped or
rejected.  The code computes D − T with no clamping and no validation: for a
0.3-second segment and a 0.5-second transition it emits a fade-out starting
at −0.2 seconds and still accepts the merge, diverging from the claimed
max(0, D − T) = 0. -/
theorem fade_start_goes_negative_without_validation :
    merge_videos_with_transitions
        [some ⟨1280, 720, 3/10⟩, some ⟨1280, 720, 5⟩] (1/2)
      = some [[FilterOp.scale 1280 720 true, FilterOp.pad 1280 720 true, FilterOp.setsar,
               FilterOp.fadeOut ((3:ℚ)/10 - 1/2) (1/2)],
              [FilterOp.scale 1280 720 true, FilterOp.pad 1280 720 true, FilterOp.setsar,
               FilterOp.fadeIn 0 (1/2)]]
      ∧ ((3:ℚ)/10 - 1/2) < 0
      ∧ max 0 ((3:ℚ)/10 - 1/2) = 0 := by
  refine ⟨?_, by norm_num, by norm_num⟩
  simp [merge_videos_with_transitions, segmentFilterChain, List.range_succ,
        show (0:ℚ) < 3/10 by norm_num]

/-- Claim C8, counterexample: with two segments whose first probe reports a
zero duration, the first (non-last) segment receives no fade-out at all, so
"every segment except the last receives a fade-out of the configured
duration" fails as stated. -/
theorem zero_duration_segment_gets_no_fade_out :
    merge_videos_with_transitions [some ⟨1280, 720, 0⟩, some ⟨1280, 720, 5⟩] (1/2)
      = some [[FilterOp.scale 1280 720 true, FilterOp.pad 1280 720 true, FilterOp.setsar],
              [FilterOp.scale 1280 720 true, FilterOp.pad 1280 720 true, FilterOp.setsar,
               FilterOp.fadeIn 0 (1/2)]]
      ∧ ∀ a b : ℚ, FilterOp.fadeOut a b
          ∉ [FilterOp.scale 1280 720 true, FilterOp.pad 1280 720 true, FilterOp.setsar] := by
  refine ⟨?_, by intro a b h; simp at h⟩
  simp [merge_videos_with_transitions, segmentFilterChain, List.range_succ]

/-- Claim C8 (amended): the transition path takes the target resolution from
the probe of the first segment; every segment's filter chain starts with the
aspect-preserving scale, centered pad and setsar at that resolution; every
segment except the first gets a fade-in of the configured duration; and every
segment except the last gets a fade-out of the configured duration starting
at its probed duration minus the transition duration — provided its probe
succeeded with a positive duration; a failed probe yields no fade-out, and
the last segment never has one. -/
theorem transition_path_scales_pads_and_fades (probes : List (Option MediaInfo)) (td : ℚ)
    (first : MediaInfo) (h0 : probes.getD 0 none = some first) (i : Nat)
    (hi : i < probes.length) :
    ∃ chains, merge_videos_with_transitions probes td = some chains
      ∧ (chains.getD i []).take 3 =
          [FilterOp.scale first.width first.height true,
           FilterOp.pad first.width first.height true, FilterOp.setsar]
      ∧ (FilterOp.fadeIn 0 td ∈ chains.getD i [] ↔ 0 < i)
      ∧ (∀ v, probes.getD i none = some v → 0 < v.duration → i < probes.length - 1 →
            FilterOp.fadeOut (v.duration - td) td ∈ chains.getD i [])
      ∧ (¬ i < probes.length - 1 → ∀ a b, FilterOp.fadeOut a b ∉ chains.getD i [])
      ∧ (probes.getD i none = none → ∀ a b, FilterOp.fadeOut a b ∉ chains.getD i []) := by
  obtain ⟨chains, hm, hc⟩ := merge_videos_with_transitions_chain probes td first h0 i hi
  refine ⟨chains, hm, ?_, ?_, ?_, ?_, ?_⟩ <;> rw [hc]
  · exact segmentFilterChain_take3 ..
  · exact fadeIn_mem_segmentFilterChain ..
  · intro v hv hd hlt
    rw [hv]
    exact fadeOut_mem_segmentFilterChain _ _ _ _ _ _ hd hlt
  · intro hlast
    exact fadeOut_not_mem_segmentFilterChain_last _ _ _ _ _ _ hlast
  · intro hnone
    rw [hnone]
    exact fadeOut_not_mem_segmentFilterChain_noProbe _ _ _ _ _

/-- A concrete healthy two-segment probe outcome, used as witness input. -/
def witnessProbes : List (Option MediaInfo) :=
  [some ⟨1280, 720, 5⟩, some ⟨1024, 768, 6⟩]

/-- Claim C8, witness: the amended theorem applied to a concrete two-segment
merge with healthy probes. -/
theorem transition_path_scales_pads_and_fades_witness :
    ∃ chains,
      merge_videos_with_transitions witnessProbes (1/2) = some chains
      ∧ (chains.getD 0 []).take 3 =
          [FilterOp.scale 1280 720 true, FilterOp.pad 1280 720 true, FilterOp.setsar]
      ∧ (FilterOp.fadeIn 0 (1/2) ∈ chains.getD 0 [] ↔ 0 < 0)
      ∧ (∀ v, witnessProbes.getD 0 none = some v →
            0 < v.duration → 0 < witnessProbes.length - 1 →
            FilterOp.fadeOut (v.duration - 1/2) (1/2) ∈ chains.getD 0 [])
      ∧ (¬ 0 < witnessProbes.length - 1 →
            ∀ a b, FilterOp.fadeOut a b ∉ chains.getD 0 [])
      ∧ (witnessProbes.getD 0 none = none →
            ∀ a b, FilterOp.fadeOut a b ∉ chains.getD 0 []) :=
  transition_path_scales_pads_and_fades witnessProbes (1/2) ⟨1280, 720, 5⟩ rfl 0 (by simp [witnessProbes])

/-! ## Segment-resolution theorems (claim C6) -/

/-- A directory state in which the session-manifest strategy yields a
segment: a readable latest pointer, a readable session file, and the listed
video on disk. -/
def scanFS : MergeFS :=
  { latest_session := FileRead.content ⟨some "20250101_120000", ["video_a.mp4"]⟩,
    session_files :=
      [("20250101_120000", FileRead.content ⟨some "20250101_120000", ["video_a.mp4"]⟩)],
    disk_files := ["video_a.mp4", "video_b.mp4"] }

/-- Claim C6, counterexample: a merge invocation with the all-videos flag set
goes straight to the directory scan even though the session-manifest strategy
would have yielded a segment, so the directory-scan fallback is not exercised
"only when the first three strategies all yield nothing". -/
theorem all_videos_flag_bypasses_session_strategies :
    manifestYield scanFS (resolvedTimestamp none scanFS) = ["video_a.mp4"]
      ∧ resolve_segments none true none scanFS
          = (Strategy.directoryScan, ["video_a.mp4", "video_b.mp4"]) := by
  constructor <;> decide

/-- Claim C6 (amended): when no explicit caller list is given and session
scoping is on (the default), exactly one strategy resolves the segments, in
priority order — session manifest, then filename pattern, then directory
scan — and the scan is used exactly when the first two yield nothing; an
explicit caller-supplied list always wins; the all-videos flag skips the
session-manifest and filename-pattern strategies and scans the directory
directly. -/
theorem merge_resolution_priority (ex : Option (List String)) (allv : Bool)
    (uts : Option String) (fs : MergeFS) :
    (∀ vs, ex = some vs → resolve_segments ex allv uts fs
        = (Strategy.explicitList, vs.filter fun v => fs.disk_files.contains v))
    ∧ (ex = none → allv = true → resolve_segments ex allv uts fs
        = (Strategy.directoryScan, sortStrings (allVideosYield fs)))
    ∧ (ex = none → allv = false →
        (manifestYield fs (resolvedTimestamp uts fs) ≠ [] →
          resolve_segments ex allv uts fs
            = (Strategy.sessionManifest,
               sortStrings (manifestYield fs (resolvedTimestamp uts fs))))
        ∧ (manifestYield fs (resolvedTimestamp uts fs) = [] →
           patternYield fs (resolvedTimestamp uts fs) ≠ [] →
          resolve_segments ex allv uts fs
            = (Strategy.filenamePattern,
               sortStrings (patternYield fs (resolvedTimestamp uts fs))))
        ∧ ((resolve_segments ex allv uts fs).1 = Strategy.directoryScan ↔
            manifestYield fs (resolvedTimestamp uts fs) = []
              ∧ patternYield fs (resolvedTimestamp uts fs) = [])) := by
  refine ⟨?_, ?_, ?_⟩
  · intro vs hvs
    subst hvs
    rfl
  · intro hex hall
    subst hex hall
    rfl
  · intro hex hall
    subst hex hall
    simp only [resolve_segments, merge_resolve, Bool.not_false, if_pos]
    by_cases hm : manifestYield fs (resolvedTimestamp uts fs) = []
    · by_cases hp : patternYield fs (resolvedTimestamp uts fs) = []
      · simp [hm, hp]
      · simp [hm, hp]
    · simp [hm]

/-- Claim C6, witness: the amended theorem applied to the concrete directory
state, in default session scope: the session-manifest strategy wins. -/
theorem merge_resolution_priority_witness :
    resolve_segments none false none scanFS
      = (Strategy.sessionManifest,
         sortStrings (manifestYield scanFS (resolvedTimestamp none scanFS))) :=
  ((merge_resolution_priority none false none scanFS).2.2 rfl rfl).1 (by decide)

/-! ## Lemmas about the polling loop -/

theorem poll_loop_congr (p q : Nat → Except String StatusResponse) (idx : Nat) :
    ∀ remaining attempt, (∀ k, attempt ≤ k → k < attempt + remaining → p k = q k) →
      poll_loop p idx attempt remaining = poll_loop q idx attempt remaining := by
  intro remaining
  induction remaining with
  | zero => intro attempt _; rfl
  | succ m ih =>
      intro attempt h
      have hpq : p attempt = q attempt := h attempt (le_refl _) (by omega)
      simp only [poll_loop]
      rw [hpq]
      cases hq : q attempt with
      | error e => rfl
      | ok resp =>
          by_cases h1 : resp.status = "Completed"
          · simp [h1]
          · by_cases h2 : resp.status = "Failed"
            · simp [h1, h2]
            · simp only [if_neg h1, if_neg h2]
              exact ih (attempt + 1) fun k hk1 hk2 => h k (by omega) (by omega)

theorem poll_loop_nonterminal (p : Nat → Except String StatusResponse) (idx : Nat) :
    ∀ remaining attempt,
      (∀ k, attempt ≤ k → k < attempt + remaining →
        ∃ resp, p k = Except.ok resp ∧ resp.status ≠ "Completed" ∧ resp.status ≠ "Failed") →
      poll_loop p idx attempt remaining = timedOutResult idx := by
  intro remaining
  induction remaining with
  | zero => intro attempt _; rfl
  | succ m ih =>
      intro attempt h
      obtain ⟨resp, hr, h1, h2⟩ := h attempt (le_refl _) (by omega)
      simp only [poll_loop, hr, if_neg h1, if_neg h2]
      exact ih (attempt + 1) fun k hk1 hk2 => h k (by omega) (by omega)

theorem poll_loop_shape (p : Nat → Except String StatusResponse) (idx : Nat) :
    ∀ remaining attempt,
      (∃ loc, poll_loop p idx attempt remaining = completedResult loc idx)
      ∨ (∃ m, poll_loop p idx attempt remaining = failedResult m idx)
      ∨ poll_loop p idx attempt remaining = timedOutResult idx
      ∨ (∃ e, poll_loop p idx attempt remaining = exceptionResult e idx) := by
  intro remaining
  induction remaining with
  | zero => intro _; exact Or.inr (Or.inr (Or.inl rfl))
  | succ m ih =>
      intro attempt
      cases hr : p attempt with
      | error e =>
          refine Or.inr (Or.inr (Or.inr ⟨e, ?_⟩))
          simp only [poll_loop, hr]
      | ok resp =>
          by_cases h1 : resp.status = "Completed"
          · refine Or.inl ⟨resp.outputUri, ?_⟩
            simp only [poll_loop, hr, if_pos h1]
          · by_cases h2 : resp.status = "Failed"
            · refine Or.inr (Or.inl ⟨resp.failureReason.getD "No failureReason provided", ?_⟩)
              simp only [poll_loop, hr, if_neg h1, if_pos h2]
            · have := ih (attempt + 1)
              simpa only [poll_loop, hr, if_neg h1, if_neg h2] using this

theorem poll_loop_error (p : Nat → Except String StatusResponse) (idx : Nat) :
    ∀ remaining attempt k e, attempt ≤ k → k < attempt + remaining →
      (∀ i, attempt ≤ i → i < k →
        ∃ resp, p i = Except.ok resp ∧ resp.status ≠ "Completed" ∧ resp.status ≠ "Failed") →
      p k = Except.error e →
      poll_loop p idx attempt remaining = exceptionResult e idx := by
  intro remaining
  induction remaining with
  | zero => intro attempt k e h1 h2 _ _; omega
  | succ m ih =>
      intro attempt k e h1 h2 hnt hk
      rcases Nat.eq_or_lt_of_le h1 with heq | hlt
      · subst heq
        simp only [poll_loop, hk]
      · obtain ⟨resp, hr, hc, hf⟩ := hnt attempt (le_refl _) hlt
        simp only [poll_loop, hr, if_neg hc, if_neg hf]
        exact ih (attempt + 1) k e hlt (by omega) (fun i hi1 hi2 => hnt i (by omega) hi2) hk

theorem poll_loop_video_index (p : Nat → Except String StatusResponse) (idx : Nat) :
    ∀ remaining attempt, (poll_loop p idx attempt remaining).video_index = idx := by
  intro remaining
  induction remaining with
  | zero => intro _; rfl
  | succ m ih =>
      intro attempt
      cases hr : p attempt with
      | error e => simp only [poll_loop, hr]; rfl
      | ok resp =>
          by_cases h1 : resp.status = "Completed"
          · simp only [poll_loop, hr, if_pos h1]; rfl
          · by_cases h2 : resp.status = "Failed"
            · simp only [poll_loop, hr, if_neg h1, if_pos h2]; rfl
            · simp only [poll_loop, hr, if_neg h1, if_neg h2]
              exact ih (attempt + 1)

theorem generate_video_async_video_index (job : RemoteJob) (idx : Nat) :
    (generate_video_async job idx).video_index = idx := by
  unfold generate_video_async
  cases job.submitError with
  | none => exact poll_loop_video_index job.poll idx max_attempts 0
  | some e => rfl

theorem timeout_msg_ne_failed_msg (m : String) :
    "Generation timed out after maximum attempts" ≠ "Generation failed: " ++ m := by
  intro h
  have hd := congrArg String.data h
  rw [String.data_append] at hd
  have ht : ("Generation timed out after maximum attempts".data).take 19
      = "Generation failed: ".data := by
    rw [hd]
    exact List.take_left' (by decide)
  exact absurd ht (by decide)

theorem timedOutResult_ne_failedResult (idx : Nat) (m : String) :
    timedOutResult idx ≠ failedResult m idx := by
  intro h
  have he := congrArg VideoResult.error h
  simp only [timedOutResult, failedResult, Option.some_inj] at he
  exact timeout_msg_ne_failed_msg m he

/-- Claim C3: every exception raised during submission or during any poll is
caught and converted into a non-success return value whose error text embeds
the exception text; `generate_video_async` always returns one of the four
terminal outcome shapes (completed, failed, timed out, caught exception) and
never propagates an exception for remote-side failures. -/
theorem submit_and_await_never_raises (job : RemoteJob) (idx : Nat) :
    ((∃ loc, generate_video_async job idx = completedResult loc idx)
      ∨ (∃ m, generate_video_async job idx = failedResult m idx)
      ∨ generate_video_async job idx = timedOutResult idx
      ∨ (∃ e, generate_video_async job idx = exceptionResult e idx))
    ∧ (∀ e, job.submitError = some e → generate_video_async job idx = exceptionResult e idx)
    ∧ (∀ e k, job.submitError = none → k < max_attempts →
        (∀ i, i < k → ∃ resp, job.poll i = Except.ok resp
            ∧ resp.status ≠ "Completed" ∧ resp.status ≠ "Failed") →
        job.poll k = Except.error e →
        generate_video_async job idx = exceptionResult e idx)
    ∧ (∀ e, (exceptionResult e idx).success = false
        ∧ (exceptionResult e idx).error = some ("Error generating video: " ++ e)) := by
  refine ⟨?_, ?_, ?_, fun e => ⟨rfl, rfl⟩⟩
  · unfold generate_video_async
    cases hs : job.submitError with
    | none => exact poll_loop_shape job.poll idx max_attempts 0
    | some e => exact Or.inr (Or.inr (Or.inr ⟨e, rfl⟩))
  · intro e he
    unfold generate_video_async
    rw [he]
  · intro e k hs hk hnt hpk
    unfold generate_video_async
    rw [hs]
    exact poll_loop_error job.poll idx max_attempts 0 k e (Nat.zero_le _) (by omega)
      (fun i _ hi2 => hnt i hi2) hpk

/-- Claim C3, witness: a job whose submission raises is returned as a caught
non-success outcome carrying the exception text. -/
theorem submit_and_await_never_raises_witness :
    generate_video_async ⟨some "boom", fun _ => Except.error "x"⟩ 1
      = exceptionResult "boom" 1 :=
  (submit_and_await_never_raises ⟨some "boom", fun _ => Except.error "x"⟩ 1).2.1 "boom" rfl

/-- Claim C7: the polling loop runs at most `max_attempts` polls with a fixed
10-second sleep (a 600-second global budget): the outcome depends only on the
first 60 poll responses, an entirely non-terminal poll history yields the
timed-out outcome, that outcome is distinct from every failed outcome, and
both are non-success, which is exactly what the aggregation loop branches on
— a non-success result is appended to `failed_videos`, never to
`successful_videos`. -/
theorem polling_is_bounded_and_times_out (p q : Nat → Except String StatusResponse)
    (idx : Nat) :
    max_attempts * poll_sleep_seconds = 600
    ∧ ((∀ k, k < max_attempts → p k = q k) →
        generate_video_async ⟨none, p⟩ idx = generate_video_async ⟨none, q⟩ idx)
    ∧ ((∀ k, k < max_attempts →
          ∃ resp, p k = Except.ok resp ∧ resp.status ≠ "Completed" ∧ resp.status ≠ "Failed") →
        generate_video_async ⟨none, p⟩ idx = timedOutResult idx)
    ∧ (∀ m, timedOutResult idx ≠ failedResult m idx)
    ∧ (timedOutResult idx).success = false
    ∧ (∀ m, (failedResult m idx).success = false)
    ∧ (∀ env ts img ii pi pd st,
        (genResult env (st.total_video_index + 1)).success = false →
        (processPrompt env ts img ii pi pd st).failed_videos.length
            = st.failed_videos.length + 1
        ∧ (processPrompt env ts img ii pi pd st).successful_videos
            = st.successful_videos) := by
  refine ⟨rfl, ?_, ?_, timedOutResult_ne_failedResult idx, rfl, fun m => rfl, ?_⟩
  · intro h
    exact poll_loop_congr p q idx max_attempts 0 fun k _ hk2 => h k (by omega)
  · intro h
    exact poll_loop_nonterminal p idx max_attempts 0 fun k _ hk2 => h k (by omega)
  · intro env ts img ii pi pd st h
    unfold processPrompt
    simp [h]

/-- Claim C7, witness: a poll history that never reaches a terminal status
yields the timed-out outcome for a concrete job. -/
theorem polling_is_bounded_and_times_out_witness :
    generate_video_async ⟨none, fun _ => Except.ok ⟨"InProgress", "", none⟩⟩ 7
      = timedOutResult 7 :=
  (polling_is_bounded_and_times_out (fun _ => Except.ok ⟨"InProgress", "", none⟩)
      (fun _ => Except.ok ⟨"InProgress", "", none⟩) 7).2.2.1
    (fun k _ => ⟨⟨"InProgress", "", none⟩, rfl, by decide, by decide⟩)

/-! ## Invariants of the `generate_ads` loop -/

/-- Every processed pair bumped the attempt counter and landed in exactly one
outcome list. -/
def CountInv (st : GenState) : Prop :=
  st.total_video_index = st.successful_videos.length + st.failed_videos.length

theorem processPrompt_countInv (env : Env) (ts img : String) (ii pi : Nat) (pd : PromptData)
    (st : GenState) (h : CountInv st) : CountInv (processPrompt env ts img ii pi pd st) := by
  unfold CountInv at *
  unfold processPrompt
  by_cases hs : (genResult env (st.total_video_index + 1)).success = true
  · simp only [if_pos hs, List.length_append, List.length_cons, List.length_nil]
    omega
  · simp only [if_neg hs, List.length_append, List.length_cons, List.length_nil]
    omega

theorem processPrompts_countInv (env : Env) (ts img : String) (ii : Nat) :
    ∀ (l : List PromptData) (pi : Nat) (st : GenState), CountInv st →
      CountInv (processPrompts env ts img ii pi l st) := by
  intro l
  induction l with
  | nil => intro pi st h; exact h
  | cons pd rest ih =>
      intro pi st h
      exact ih (pi + 1) _ (processPrompt_countInv env ts img ii pi pd st h)

theorem processImage_countInv (env : Env) (ts : String) (num ii : Nat) (ia : ImageAnalysis)
    (st : GenState) (h : CountInv st) : CountInv (processImage env ts num ii ia st) := by
  unfold processImage
  by_cases he : ia.video_prompts.isEmpty
  · simp only [if_pos he]; exact h
  · simp only [if_neg he]
    exact processPrompts_countInv env ts _ ii _ 1 st h

theorem processImages_countInv (env : Env) (ts : String) (num : Nat) :
    ∀ (l : List ImageAnalysis) (ii : Nat) (st : GenState), CountInv st →
      CountInv (processImages env ts num ii l st) := by
  intro l
  induction l with
  | nil => intro ii st h; exact h
  | cons ia rest ih =>
      intro ii st h
      exact ih (ii + 1) _ (processImage_countInv env ts num ii ia st h)

/-- Claim C9: every (image, prompt) pair that bumps the attempt counter lands
in exactly one outcome list, so after the whole loop the attempted total is
the successful count plus the failed count. -/
theorem total_attempted_splits_into_outcomes (env : Env) (ts : String) (num : Nat)
    (analyses : List ImageAnalysis) :
    (mkReport ts (generate_ads_run env ts num analyses)).total_attempted
      = (mkReport ts (generate_ads_run env ts num analyses)).successful_count
        + (mkReport ts (generate_ads_run env ts num analyses)).failed_count :=
  processImages_countInv env ts num analyses 1 initState rfl

/-- The download / outcome-list bookkeeping invariant: the attempted-download
log is duplicate-free and holds exactly the indices of jobs that returned
success; successful records keep their success flag and carry a local path
exactly when their download succeeded; failed records are the non-success
results. -/
def TrackInv (env : Env) (st : GenState) : Prop :=
  st.download_attempts.Nodup
  ∧ (∀ j ∈ st.download_attempts,
      1 ≤ j ∧ j ≤ st.total_video_index ∧ (genResult env j).success = true)
  ∧ (∀ j, 1 ≤ j → j ≤ st.total_video_index → (genResult env j).success = true →
      j ∈ st.download_attempts)
  ∧ (∀ r ∈ st.successful_videos, r.result.success = true
      ∧ (r.local_filename.isSome ↔ env.download r.result.video_index = true))
  ∧ (∀ r ∈ st.failed_videos, r.result.success = false)

/-- The record appended to `successful_videos` for the job at index
`st.total_video_index + 1`. -/
def successRecord (env : Env) (ts img : String) (ii pi : Nat) (pd : PromptData)
    (st : GenState) : JobRecord :=
  { result := genResult env (st.total_video_index + 1), prompt := pd.text,
    source_image := img, prompt_type := pd.ptype, image_index := ii, prompt_index := pi,
    local_filename := if env.download (st.total_video_index + 1)
      then some ⟨generated_folder, localFilename ts ii pi pd.ptype⟩ else none }

/-- The record appended to `failed_videos` for a non-success result. -/
def failureRecord (env : Env) (img : String) (ii pi : Nat) (pd : PromptData)
    (st : GenState) : JobRecord :=
  { result := genResult env (st.total_video_index + 1), prompt := pd.text,
    source_image := img, prompt_type := pd.ptype, image_index := ii, prompt_index := pi,
    local_filename := none }

theorem processPrompt_success_eq (env : Env) (ts img : String) (ii pi : Nat) (pd : PromptData)
    (st : GenState) (hs : (genResult env (st.total_video_index + 1)).success = true) :
    processPrompt env ts img ii pi pd st =
      ⟨st.successful_videos ++ [successRecord env ts img ii pi pd st], st.failed_videos,
       st.total_video_index + 1, st.download_attempts ++ [st.total_video_index + 1]⟩ := by
  unfold processPrompt successRecord
  rw [if_pos hs]
  by_cases hd : env.download (st.total_video_index + 1) = true
  · simp only [if_pos hd]
  · simp only [if_neg hd]

theorem processPrompt_failure_eq (env : Env) (ts img : String) (ii pi : Nat) (pd : PromptData)
    (st : GenState) (hs : ¬ (genResult env (st.total_video_index + 1)).success = true) :
    processPrompt env ts img ii pi pd st =
      ⟨st.successful_videos, st.failed_videos ++ [failureRecord env img ii pi pd st],
       st.total_video_index + 1, st.download_attempts⟩ := by
  unfold processPrompt failureRecord
  rw [if_neg hs]

theorem processPrompt_trackInv (env : Env) (ts img : String) (ii pi : Nat) (pd : PromptData)
    (st : GenState) (h : TrackInv env st) : TrackInv env (processPrompt env ts img ii pi pd st) := by
  obtain ⟨hnd, hmem, hcov, hsucc, hfail⟩ := h
  by_cases hs : (genResult env (st.total_video_index + 1)).success = true
  · rw [processPrompt_success_eq env ts img ii pi pd st hs]
    refine ⟨?_, ?_, ?_, ?_, ?_⟩
    · rw [List.nodup_append]
      refine ⟨hnd, List.nodup_singleton _, ?_⟩
      intro j hj hj'
      rw [List.mem_singleton] at hj'
      subst hj'
      exact absurd (hmem _ hj).2.1 (by omega)
    · intro j hj
      rcases List.mem_append.mp hj with hj | hj
      · obtain ⟨h1, h2, h3⟩ := hmem j hj
        exact ⟨h1, Nat.le_succ_of_le h2, h3⟩
      · rw [List.mem_singleton] at hj
        subst hj
        exact ⟨by omega, Nat.le_refl _, hs⟩
    · intro j h1 h2 h3
      dsimp only at h2 ⊢
      rcases Nat.lt_or_ge j (st.total_video_index + 1) with hlt | hge
      · exact List.mem_append.mpr (Or.inl (hcov j h1 (by omega) h3))
      · have : j = st.total_video_index + 1 := by omega
        subst this
        exact List.mem_append.mpr (Or.inr (List.mem_singleton.mpr rfl))
    · intro r hr
      rcases List.mem_append.mp hr with hr | hr
      · exact hsucc r hr
      · rw [List.mem_singleton] at hr
        subst hr
        unfold successRecord
        refine ⟨hs, ?_⟩
        dsimp only
        rw [genResult, generate_video_async_video_index]
        by_cases hd : env.download (st.total_video_index + 1) = true
        · simp [hd]
        · simp [hd]
    · exact hfail
  · rw [processPrompt_failure_eq env ts img ii pi pd st hs]
    refine ⟨hnd, ?_, ?_, hsucc, ?_⟩
    · intro j hj
      obtain ⟨h1, h2, h3⟩ := hmem j hj
      exact ⟨h1, Nat.le_succ_of_le h2, h3⟩
    · intro j h1 h2 h3
      dsimp only at h2
      rcases Nat.lt_or_ge j (st.total_video_index + 1) with hlt | hge
      · exact hcov j h1 (by omega) h3
      · have : j = st.total_video_index + 1 := by omega
        subst this
        exact absurd h3 hs
    · intro r hr
      rcases List.mem_append.mp hr with hr | hr
      · exact hfail r hr
      · rw [List.mem_singleton] at hr
        subst hr
        unfold failureRecord
        dsimp only
        simpa using hs

theorem processPrompts_trackInv (env : Env) (ts img : String) (ii : Nat) :
    ∀ (l : List PromptData) (pi : Nat) (st : GenState), TrackInv env st →
      TrackInv env (processPrompts env ts img ii pi l st) := by
  intro l
  induction l with
  | nil => intro pi st h; exact h
  | cons pd rest ih =>
      intro pi st h
      exact ih (pi + 1) _ (processPrompt_trackInv env ts img ii pi pd st h)

theorem processImage_trackInv (env : Env) (ts : String) (num ii : Nat) (ia : ImageAnalysis)
    (st : GenState) (h : TrackInv env st) : TrackInv env (processImage env ts num ii ia st) := by
  unfold processImage
  by_cases he : ia.video_prompts.isEmpty
  · simp only [if_pos he]; exact h
  · simp only [if_neg he]
    exact processPrompts_trackInv env ts _ ii _ 1 st h

theorem processImages_trackInv (env : Env) (ts : String) (num : Nat) :
    ∀ (l : List ImageAnalysis) (ii : Nat) (st : GenState), TrackInv env st →
      TrackInv env (processImages env ts num ii l st) := by
  intro l
  induction l with
  | nil => intro ii st h; exact h
  | cons ia rest ih =>
      intro ii st h
      exact ih (ii + 1) _ (processImage_trackInv env ts num ii ia st h)

theorem generate_ads_run_trackInv (env : Env) (ts : String) (num : Nat)
    (analyses : List ImageAnalysis) : TrackInv env (generate_ads_run env ts num analyses) := by
  refine processImages_trackInv env ts num analyses 1 initState ?_
  refine ⟨List.nodup_nil, ?_, ?_, ?_, ?_⟩
  · intro j hj
    exact absurd hj (List.not_mem_nil j)
  · intro j h1 h2 _
    dsimp only [initState] at h2
    omega
  · intro r hr
    exact absurd hr (List.not_mem_nil r)
  · intro r hr
    exact absurd hr (List.not_mem_nil r)

/-- Claim C4: over a whole session, the download of a job's artifact is
attempted exactly once when that job's outcome is success and never
otherwise; a successful job whose download failed stays in
`successful_videos` (so it still counts as a success in the report) but
carries no local path, and the manifest's produced-files list holds exactly
the names of the successful jobs whose download succeeded. -/
theorem retrieval_once_iff_completed (env : Env) (ts : String) (num : Nat)
    (analyses : List ImageAnalysis) :
    (generate_ads_run env ts num analyses).download_attempts.Nodup
    ∧ (∀ j, j ∈ (generate_ads_run env ts num analyses).download_attempts ↔
        1 ≤ j ∧ j ≤ (generate_ads_run env ts num analyses).total_video_index
          ∧ (genResult env j).success = true)
    ∧ (∀ j, (generate_ads_run env ts num analyses).download_attempts.count j
        = if 1 ≤ j ∧ j ≤ (generate_ads_run env ts num analyses).total_video_index
              ∧ (genResult env j).success = true then 1 else 0)
    ∧ (∀ r ∈ (generate_ads_run env ts num analyses).successful_videos,
        r.result.success = true
        ∧ (r.local_filename.isSome ↔ env.download r.result.video_index = true))
    ∧ (∀ r ∈ (generate_ads_run env ts num analyses).failed_videos, r.result.success = false)
    ∧ (∀ n, n ∈ sessionVideos (generate_ads_run env ts num analyses) ↔
        ∃ r ∈ (generate_ads_run env ts num analyses).successful_videos,
          r.local_filename.map LocalPath.name = some n) := by
  obtain ⟨hnd, hmem, hcov, hsucc, hfail⟩ := generate_ads_run_trackInv env ts num analyses
  refine ⟨hnd, ?_, ?_, hsucc, hfail, ?_⟩
  · intro j
    exact ⟨fun hj => hmem j hj, fun h => hcov j h.1 h.2.1 h.2.2⟩
  · intro j
    by_cases hc : 1 ≤ j ∧ j ≤ (generate_ads_run env ts num analyses).total_video_index
        ∧ (genResult env j).success = true
    · rw [if_pos hc]
      exact List.count_eq_one_of_mem hnd (hcov j hc.1 hc.2.1 hc.2.2)
    · rw [if_neg hc, List.count_eq_zero]
      intro hj
      exact hc (hmem j hj)
  · intro n
    simp [sessionVideos, List.mem_filterMap]

/-- A remote behaviour whose every poll reports completion. -/
def happyJob : RemoteJob := ⟨none, fun _ => Except.ok ⟨"Completed", "s3://bucket/out/", none⟩⟩

/-- An environment in which every job completes and every download works. -/
def happyEnv : Env := ⟨fun _ => happyJob, fun _ => true⟩

/-- A single image with a single bare-string prompt. -/
def oneImage : List ImageAnalysis := [⟨some "a.jpg", [PromptData.str "p"]⟩]

/-- Claim C4, witness: in a one-job all-success session, job 1's download is
attempted, and the attempt log is duplicate-free. -/
theorem retrieval_once_iff_completed_witness :
    1 ∈ (generate_ads_run happyEnv "20250101_000000" 1 oneImage).download_attempts
    ∧ (generate_ads_run happyEnv "20250101_000000" 1 oneImage).download_attempts.Nodup :=
  ⟨((retrieval_once_iff_completed happyEnv "20250101_000000" 1 oneImage).2.1 1).mpr
      ⟨by decide, by decide, by decide⟩,
   (retrieval_once_iff_completed happyEnv "20250101_000000" 1 oneImage).1⟩

/-- Claim C5: the derived artifact filename joins the session id with the
1-based, 2-digit-padded image and prompt ordinals and the lower-cased,
space-to-underscore prompt-type slug; pairs are processed image-major and
prompt-minor, so a 2-images-by-3-prompts session in which all six jobs
succeed (and their artifacts are retrieved) yields a manifest of exactly
those six names in that order and a report counting six successes out of six
attempts. -/
theorem two_by_three_manifest (env : Env) (ts img1 img2 : String)
    (p1 p2 p3 q1 q2 q3 : PromptData) (r1 r2 : List PromptData)
    (h : ∀ j, 1 ≤ j → j ≤ 6 → (genResult env j).success = true ∧ env.download j = true) :
    sessionVideos (generate_ads_run env ts 3
        [⟨some img1, p1 :: p2 :: p3 :: r1⟩, ⟨some img2, q1 :: q2 :: q3 :: r2⟩])
      = [localFilename ts 1 1 p1.ptype, localFilename ts 1 2 p2.ptype,
         localFilename ts 1 3 p3.ptype, localFilename ts 2 1 q1.ptype,
         localFilename ts 2 2 q2.ptype, localFilename ts 2 3 q3.ptype]
    ∧ (mkReport ts (generate_ads_run env ts 3
        [⟨some img1, p1 :: p2 :: p3 :: r1⟩, ⟨some img2, q1 :: q2 :: q3 :: r2⟩])).successful_count = 6
    ∧ (mkReport ts (generate_ads_run env ts 3
        [⟨some img1, p1 :: p2 :: p3 :: r1⟩, ⟨some img2, q1 :: q2 :: q3 :: r2⟩])).failed_count = 0
    ∧ (mkReport ts (generate_ads_run env ts 3
        [⟨some img1, p1 :: p2 :: p3 :: r1⟩, ⟨some img2, q1 :: q2 :: q3 :: r2⟩])).total_attempted = 6
    ∧ (∀ t, localFilename ts 1 2 t
        = "video_" ++ ts ++ "_" ++ "01" ++ "_" ++ "02" ++ "_" ++ slugify t ++ ".mp4") := by
  have h1 := h 1 (by omega) (by omega)
  have h2 := h 2 (by omega) (by omega)
  have h3 := h 3 (by omega) (by omega)
  have h4 := h 4 (by omega) (by omega)
  have h5 := h 5 (by omega) (by omega)
  have h6 := h 6 (by omega) (by omega)
  refine ⟨?_, ?_, ?_, ?_, fun t => rfl⟩ <;>
    simp [generate_ads_run, processImages, processImage, processPrompts, processPrompt,
          initState, sessionVideos, mkReport,
          h1.1, h1.2, h2.1, h2.2, h3.1, h3.2, h4.1, h4.2, h5.1, h5.2, h6.1, h6.2]

/-- Claim C5, witness: the 2×3 scenario with the all-success environment and
two concrete images with dict prompts. -/
theorem two_by_three_manifest_witness :
    sessionVideos (generate_ads_run happyEnv "20250101_000000" 3
        [⟨some "a.jpg", PromptData.dict ⟨some "pa", some "Product Showcase"⟩
            :: PromptData.dict ⟨some "pb", some "Lifestyle Scene"⟩
            :: PromptData.dict ⟨some "pc", none⟩ :: []⟩,
         ⟨some "b.jpg", PromptData.str "qa" :: PromptData.str "qb"
            :: PromptData.str "qc" :: []⟩])
      = [localFilename "20250101_000000" 1 1 (PromptData.dict ⟨some "pa", some "Product Showcase"⟩).ptype,
         localFilename "20250101_000000" 1 2 (PromptData.dict ⟨some "pb", some "Lifestyle Scene"⟩).ptype,
         localFilename "20250101_000000" 1 3 (PromptData.dict ⟨some "pc", none⟩).ptype,
         localFilename "20250101_000000" 2 1 (PromptData.str "qa").ptype,
         localFilename "20250101_000000" 2 2 (PromptData.str "qb").ptype,
         localFilename "20250101_000000" 2 3 (PromptData.str "qc").ptype]
    ∧ (mkReport "20250101_000000" (generate_ads_run happyEnv "20250101_000000" 3
        [⟨some "a.jpg", PromptData.dict ⟨some "pa", some "Product Showcase"⟩
            :: PromptData.dict ⟨some "pb", some "Lifestyle Scene"⟩
            :: PromptData.dict ⟨some "pc", none⟩ :: []⟩,
         ⟨some "b.jpg", PromptData.str "qa" :: PromptData.str "qb"
            :: PromptData.str "qc" :: []⟩])).successful_count = 6
    ∧ (mkReport "20250101_000000" (generate_ads_run happyEnv "20250101_000000" 3
        [⟨some "a.jpg", PromptData.dict ⟨some "pa", some "Product Showcase"⟩
            :: PromptData.dict ⟨some "pb", some "Lifestyle Scene"⟩
            :: PromptData.dict ⟨some "pc", none⟩ :: []⟩,
         ⟨some "b.jpg", PromptData.str "qa" :: PromptData.str "qb"
            :: PromptData.str "qc" :: []⟩])).failed_count = 0
    ∧ (mkReport "20250101_000000" (generate_ads_run happyEnv "20250101_000000" 3
        [⟨some "a.jpg", PromptData.dict ⟨some "pa", some "Product Showcase"⟩
            :: PromptData.dict ⟨some "pb", some "Lifestyle Scene"⟩
            :: PromptData.dict ⟨some "pc", none⟩ :: []⟩,
         ⟨some "b.jpg", PromptData.str "qa" :: PromptData.str "qb"
            :: PromptData.str "qc" :: []⟩])).total_attempted = 6
    ∧ (∀ t, localFilename "20250101_000000" 1 2 t
        = "video_" ++ "20250101_000000" ++ "_" ++ "01" ++ "_" ++ "02" ++ "_"
          ++ slugify t ++ ".mp4") :=
  two_by_three_manifest happyEnv "20250101_000000" "a.jpg" "b.jpg"
    (PromptData.dict ⟨some "pa", some "Product Showcase"⟩)
    (PromptData.dict ⟨some "pb", some "Lifestyle Scene"⟩)
    (PromptData.dict ⟨some "pc", none⟩)
    (PromptData.str "qa") (PromptData.str "qb") (PromptData.str "qc") [] []
    (fun _ _ _ => ⟨rfl, rfl⟩)

/-! ## The session manifest and the "latest" pointer (claims C2 and C10) -/

theorem runSessions_append (fs : AdsFS) (l : List SessionInput) (s : SessionInput) :
    runSessions fs (l ++ [s])
      = (generate_ads_fs s.env s.timestamp s.num s.analyses (runSessions fs l)).1 := by
  induction l generalizing fs with
  | nil => rfl
  | cons a rest ih => exact ih _

/-- A remote behaviour whose every poll reports failure. -/
def failJob : RemoteJob := ⟨none, fun _ => Except.ok ⟨"Failed", "", some "boom"⟩⟩

/-- An environment in which every job fails remotely. -/
def failEnv : Env := ⟨fun _ => failJob, fun _ => true⟩

/-- A first session that succeeds, and a second whose only job fails. -/
def sessionOne : SessionInput := ⟨"20250101_000000", 1, oneImage, happyEnv⟩

/-- The follow-up session whose only job fails remotely. -/
def sessionTwo : SessionInput := ⟨"20250102_000000", 1, oneImage, failEnv⟩

/-- Claim C2, counterexample: after the two sequential sessions
`sessionOne` (succeeds) and `sessionTwo` (its one job fails, so nothing is
produced), the latest pointer still carries session one's manifest — not
session two's — and no session-scoped manifest for session two exists, so
"after session N completes the latest pointer equals the manifest of session
N" fails as stated. -/
theorem latest_skips_fully_failed_session :
    (runSessions ⟨[], none⟩ [sessionOne, sessionTwo]).latest
        = some ⟨"20250101_000000", ["video_20250101_000000_01_01_unknown.mp4"]⟩
    ∧ ((runSessions ⟨[], none⟩ [sessionOne, sessionTwo]).latest.map
        SessionManifest.timestamp) = some "20250101_000000"
    ∧ sessionTwo.timestamp = "20250102_000000"
    ∧ ("20250101_000000" : String) ≠ "20250102_000000"
    ∧ (runSessions ⟨[], none⟩ [sessionOne, sessionTwo]).session_manifests.lookup
        "20250102_000000" = none := by
  refine ⟨by decide, by decide, rfl, by decide, by decide⟩

/-- Claim C2 (amended): after any sequence of sessions whose last session
produced at least one retrieved artifact, the latest pointer equals that last
session's manifest — computed from the batch's final state, hence written
only after every job of the session reached a terminal outcome — and the
session-scoped manifest written for it is the same; a session that produces
nothing writes neither file (see the counterexample for that case). -/
theorem latest_points_to_last_producing_session (fs : AdsFS) (l : List SessionInput)
    (s : SessionInput)
    (h : sessionVideos (generate_ads_run s.env s.timestamp s.num s.analyses) ≠ []) :
    (runSessions fs (l ++ [s])).latest
      = some ⟨s.timestamp, sessionVideos (generate_ads_run s.env s.timestamp s.num s.analyses)⟩
    ∧ (runSessions fs (l ++ [s])).session_manifests
      = (runSessions fs l).session_manifests
          ++ [(s.timestamp,
               ⟨s.timestamp, sessionVideos (generate_ads_run s.env s.timestamp s.num s.analyses)⟩)] := by
  rw [runSessions_append]
  unfold generate_ads_fs
  have he : (sessionVideos (generate_ads_run s.env s.timestamp s.num s.analyses)).isEmpty
      = false := by
    cases hv : sessionVideos (generate_ads_run s.env s.timestamp s.num s.analyses) with
    | nil => exact absurd hv h
    | cons a t => rfl
  simp only [he, Bool.false_eq_true, if_false]
  exact ⟨trivial, trivial⟩

/-- Claim C2, witness: the amended theorem applied to the single producing
session `sessionOne` from the empty directory state. -/
theorem latest_points_to_last_producing_session_witness :
    (runSessions ⟨[], none⟩ ([] ++ [sessionOne])).latest
      = some ⟨sessionOne.timestamp,
          sessionVideos (generate_ads_run sessionOne.env sessionOne.timestamp
            sessionOne.num sessionOne.analyses)⟩
    ∧ (runSessions ⟨[], none⟩ ([] ++ [sessionOne])).session_manifests
      = (runSessions ⟨[], none⟩ []).session_manifests
          ++ [(sessionOne.timestamp,
               ⟨sessionOne.timestamp,
                sessionVideos (generate_ads_run sessionOne.env sessionOne.timestamp
                  sessionOne.num sessionOne.analyses)⟩)] :=
  latest_points_to_last_producing_session ⟨[], none⟩ [] sessionOne (by decide)

/-- A directory state with an earlier session's manifest and pointer. -/
def priorFS : AdsFS :=
  ⟨[("20250101_000000", ⟨"20250101_000000", ["video_a.mp4"]⟩)],
   some ⟨"20250101_000000", ["video_a.mp4"]⟩⟩

/-- Claim C10: a session in which no successful job had its artifact
retrieved (the produced-files list is empty) writes neither the
session-scoped manifest nor the latest pointer: the manifest-file state is
exactly what it was before the session. -/
theorem empty_session_leaves_files_unchanged (env : Env) (ts : String) (num : Nat)
    (analyses : List ImageAnalysis) (fs : AdsFS)
    (h : sessionVideos (generate_ads_run env ts num analyses) = []) :
    (generate_ads_fs env ts num analyses fs).1 = fs := by
  unfold generate_ads_fs
  simp only [h, List.isEmpty_nil, if_true]

/-- Claim C10, witness: an all-failing session leaves the prior session's
manifest list and latest pointer untouched. -/
theorem empty_session_leaves_files_unchanged_witness :
    (generate_ads_fs failEnv "20250103_000000" 1 oneImage priorFS).1 = priorFS :=
  empty_session_leaves_files_unchanged failEnv "20250103_000000" 1 oneImage priorFS (by decide)

end LumaPipeline
